import Mathlib

/-!
Shallow embedding of the erpnext-setup-wizard deployment core:
the local/remote command-execution abstraction (`wizard/ssh.py`),
the compose-file selection and health-poll loop (`wizard/steps/docker.py`),
the post-deploy install pipeline (`wizard/steps/site.py`),
configuration loading and validation (`wizard/config_loader.py`,
`wizard/steps/configure.py`), and the version fetcher
(`wizard/versions.py`).

Python machine-level conventions used throughout the embedding:
* the outcome of an external command is a triple (exit code, stdout, stderr);
  `subprocess.run` without `check=True` never raises on a non-zero exit,
  and only a spawn/transport-level failure raises.  We model the
  operating system as a partial map from command to outcome, `none`
  standing for the exceptional spawn/transport failure.
* Python string operations (`strip`, `split`, `isdigit`, regexes) are
  re-implemented structurally on `List Char` so that every definition
  is executable and kernel-reducible.
-/

namespace Wizard

/-! ## Python string primitives -/

/-- Characters stripped by the Python default `str.strip()`. -/
def isPySpace (c : Char) : Bool :=
  c = ' ' || c = '\t' || c = '\n' || c = '\r' || c = '\x0b' || c = '\x0c'

/-- Python `str.strip()`: drop leading and trailing whitespace. -/
def pyStrip (s : String) : String :=
  String.mk (((s.toList.dropWhile isPySpace).reverse.dropWhile isPySpace).reverse)

/-- Split a character list on a separator character, keeping empty
pieces, exactly like the Python `str.split(sep)` (with an accumulator for
the piece currently being read). -/
def splitCharAux (sep : Char) : List Char → List Char → List (List Char)
  | acc, [] => [acc.reverse]
  | acc, c :: cs =>
    if c = sep then acc.reverse :: splitCharAux sep [] cs
    else splitCharAux sep (c :: acc) cs

/-- Python `s.split(sep)` on strings. -/
def pySplit (sep : Char) (s : String) : List String :=
  (splitCharAux sep [] s.toList).map String.mk

/-- Python `str.isdigit` restricted to ASCII: non-empty and all digits. -/
def pyIsDigit (s : String) : Bool :=
  !s.toList.isEmpty && s.toList.all Char.isDigit

/-- Numeric value of an ASCII digit string (Python `int(...)`). -/
def digitsToNat (l : List Char) : Nat :=
  l.foldl (fun n c => 10 * n + (c.toNat - '0'.toNat)) 0

/-! ## Executor (`wizard/ssh.py`)

The operating system is modelled as a partial map from a command to the
triple of exit code, stdout and stderr.  `none` models the only
exceptional condition of `subprocess.run` without `check=True`: the
subprocess (shell or ssh client) could not be spawned / the transport
failed.  A completed command — with any exit status — is `some`. -/

/-- Outcome environment for commands given to `subprocess.run` with a
command representation `α` (a shell line for the local executor, an
argument vector for the ssh executor). -/
def CmdWorld (α : Type) := α → Option (Int × String × String)

/-- Result of `Executor.run`: the bare exit code (`capture=False`) or
the captured triple (`capture=True`). -/
inductive RunResult where
  | code (c : Int)
  | captured (c : Int) (out err : String)
  deriving DecidableEq, Repr

/-- The only exceptional outcome of command execution. -/
inductive ExecError where
  | transport
  deriving DecidableEq, Repr

/-- `subprocess.run(cmd, ...)` with optional output capture; raises
(`Except.error`) only when the subprocess cannot be run at all. -/
def subprocessRun {α : Type} (w : CmdWorld α) (cmd : α) (capture : Bool) :
    Except ExecError RunResult :=
  match w cmd with
  | none => .error .transport
  | some (c, out, err) =>
    .ok (if capture then .captured c out err else .code c)

/-- `LocalExecutor` holds no connection state. -/
structure LocalExecutor where
  deriving DecidableEq, Repr

/-- `LocalExecutor.run`: run a shell command locally
(`subprocess.run(cmd, shell=True)`), returning `(returncode, stdout,
stderr)` if `capture=True`, else `returncode`. -/
def LocalExecutor.run (_e : LocalExecutor) (w : CmdWorld String)
    (cmd : String) (capture : Bool) : Except ExecError RunResult :=
  subprocessRun w cmd capture

/-- `SSHExecutor`: connection parameters bound at construction. -/
structure SSHExecutor where
  host : String
  user : String
  port : Nat
  key_path : String
  deriving DecidableEq, Repr

/-- `SSHExecutor._ssh_base`: base ssh argument vector with connection
options. -/
def SSHExecutor.ssh_base (e : SSHExecutor) : List String :=
  ["ssh", "-o", "StrictHostKeyChecking=accept-new", "-p", toString e.port]
    ++ (if e.key_path ≠ "" then ["-i", e.key_path] else [])
    ++ [e.user ++ "@" ++ e.host]

/-- `SSHExecutor.run`: run a command remotely by invoking the ssh
client on `_ssh_base() + [cmd]` (`subprocess.run(full_cmd)`). -/
def SSHExecutor.run (e : SSHExecutor) (w : CmdWorld (List String))
    (cmd : String) (capture : Bool) : Except ExecError RunResult :=
  subprocessRun w (e.ssh_base ++ [cmd]) capture

/-! ## Deployment configuration (`wizard/steps/configure.py`)

The `Config` dataclass declares the fields listed in
`config_dataclass_fields` below.  The compose-file selection in
`wizard/steps/docker.py` additionally reads the attributes
`backup_cron` and `enable_portainer` from the configuration object, and
the loaders in `wizard/config_loader.py` pass `backup_cron` to the
constructor, so the Lean record carries those two fields as well; the
fact that the Python dataclass does *not* declare them is recorded
separately in `config_dataclass_fields` / `config_from_yaml_kwargs`. -/

/-- `CommunityApp` named tuple (`wizard/community_apps.py`). -/
structure CommunityApp where
  display_name : String
  repo_name : String
  repo_url : String
  branch : String
  deriving DecidableEq, Repr

/-- Custom private app entry (`{"url": ..., "branch": ..., "name": ...}`). -/
structure CustomApp where
  url : String
  branch : String
  name : String
  deriving DecidableEq, Repr

/-- User-supplied configuration values (the `Config` dataclass plus the
two dynamically-read compose attributes, see section comment). -/
structure Config where
  deploy_mode : String := "local"
  site_name : String := ""
  erpnext_version : String := ""
  db_type : String := "mariadb"
  http_port : String := "8080"
  db_password : String := ""
  admin_password : String := ""
  extra_apps : List String := []
  community_apps : List CommunityApp := []
  custom_apps : List CustomApp := []
  domain : String := ""
  letsencrypt_email : String := ""
  ssh_host : String := ""
  ssh_user : String := "root"
  ssh_port : Nat := 22
  ssh_key_path : String := ""
  smtp_host : String := ""
  smtp_port : Nat := 587
  smtp_user : String := ""
  smtp_password : String := ""
  smtp_use_tls : Bool := true
  backup_enabled : Bool := false
  backup_s3_endpoint : String := ""
  backup_s3_bucket : String := ""
  backup_s3_access_key : String := ""
  backup_s3_secret_key : String := ""
  backup_cron : String := ""
  enable_portainer : Bool := false
  deriving Repr

/-- Field names declared by the `Config` dataclass in
`wizard/steps/configure.py`, lines 23-60, in declaration order. -/
def config_dataclass_fields : List String :=
  ["deploy_mode", "site_name", "erpnext_version", "db_type", "http_port",
   "db_password", "admin_password", "extra_apps", "community_apps",
   "custom_apps", "domain", "letsencrypt_email", "ssh_host", "ssh_user",
   "ssh_port", "ssh_key_path", "smtp_host", "smtp_port", "smtp_user",
   "smtp_password", "smtp_use_tls", "backup_enabled", "backup_s3_endpoint",
   "backup_s3_bucket", "backup_s3_access_key", "backup_s3_secret_key"]

/-- Keyword arguments passed to `Config(...)` by `_config_from_yaml`
(`wizard/config_loader.py`, lines 238-266), in call order. -/
def config_from_yaml_kwargs : List String :=
  ["deploy_mode", "site_name", "erpnext_version", "db_type", "http_port",
   "db_password", "admin_password", "extra_apps", "community_apps",
   "custom_apps", "domain", "letsencrypt_email", "ssh_host", "ssh_user",
   "ssh_port", "ssh_key_path", "smtp_host", "smtp_port", "smtp_user",
   "smtp_password", "smtp_use_tls", "backup_enabled", "backup_s3_endpoint",
   "backup_s3_bucket", "backup_s3_access_key", "backup_s3_secret_key",
   "backup_cron"]

/-- Keyword arguments passed to `Config(...)` by `_config_from_args`
(`wizard/config_loader.py`, lines 311-339), in call order. -/
def config_from_args_kwargs : List String :=
  config_from_yaml_kwargs

/-- Executors the factory can return. -/
inductive Executor where
  | localExec (e : LocalExecutor)
  | sshExec (e : SSHExecutor)
  deriving DecidableEq, Repr

/-- `create_executor` (`wizard/ssh.py`, lines 84-98): pick the executor
variant from `deploy_mode`. -/
def create_executor (cfg : Config) : Executor :=
  if cfg.deploy_mode = "remote" then
    .sshExec ⟨cfg.ssh_host, cfg.ssh_user, cfg.ssh_port, cfg.ssh_key_path⟩
  else
    .localExec ⟨⟩

/-! ## Compose-file selection (`wizard/steps/docker.py`) -/

/-- The `files` list built by `build_compose_cmd`
(`wizard/steps/docker.py`, lines 14-35): base file, database overlay,
redis overlay, ingress overlay, then the optional backup-cron and
portainer overlays.  Python truthiness of `cfg.backup_cron` is
non-emptiness of the string. -/
def build_compose_files (cfg : Config) : List String :=
  ["compose.yaml"]
    ++ (if cfg.db_type = "postgres" then ["overrides/compose.postgres.yaml"]
        else ["overrides/compose.mariadb.yaml"])
    ++ ["overrides/compose.redis.yaml"]
    ++ (if cfg.deploy_mode = "local" then ["overrides/compose.noproxy.yaml"]
        else ["overrides/compose.https.yaml"])
    ++ (if cfg.backup_cron ≠ "" then ["overrides/compose.backup-cron.yaml"] else [])
    ++ (if cfg.enable_portainer then ["compose.portainer.yaml"] else [])

/-- `build_compose_cmd` (`wizard/steps/docker.py`, lines 14-39): the
full command string, prefixed with the project directory change in
remote mode. -/
def build_compose_cmd (cfg : Config) : String :=
  let cmd := "docker compose "
    ++ String.intercalate " " ((build_compose_files cfg).map (fun f => "-f " ++ f))
  if cfg.deploy_mode = "remote" then "cd ~/frappe_docker && " ++ cmd else cmd

/-! ## Health polling (`wizard/steps/docker.py`, `_wait_for_healthy`)

Each poll runs `"{compose_cmd} ps --format json"` with `capture=True`;
its outcome (for a completed command) is an exit code and a stdout
string.  `json.loads` applied to one stdout line followed by
`svc.get("State", "")` is modelled by an abstract line parser
`parse : String → Option String` (`none` = `JSONDecodeError`,
`some st` = parsed with reported state `st`; a missing `State` key is
`some ""`).  Wall-clock time is idealised to the 5-second sleep per
iteration, so the `while time.time() - start < 120` loop performs
exactly `120 / 5 = 24` polls before timing out. -/

/-- One line of `ps --format json` output counts as healthy when it
parses and its `State` equals `"running"`. -/
def lineRunning (parse : String → Option String) (line : String) : Bool :=
  match parse line with
  | some st => st = "running"
  | none => false

/-- The success test of one poll iteration: exit code 0, non-empty
(stripped) output, every line healthy, and at least one line. -/
def pollHealthy (parse : String → Option String) (result : Int × String) : Bool :=
  let code := result.1
  let stdout := result.2
  if code = 0 ∧ pyStrip stdout ≠ "" then
    let lines := pySplit '\n' (pyStrip stdout)
    lines.all (lineRunning parse) && decide (0 < lines.length)
  else false

/-- Polling loop: try poll `k`, `k+1`, ... while fuel remains; return
the index of the first healthy poll, `none` on timeout. -/
def waitForHealthyAux (parse : String → Option String)
    (polls : Nat → Int × String) : Nat → Nat → Option Nat
  | _, 0 => none
  | k, fuel + 1 =>
    if pollHealthy parse (polls k) then some k
    else waitForHealthyAux parse polls (k + 1) fuel

/-- Health-poll budget in seconds (`timeout: int = 120`). -/
def healthTimeout : Nat := 120

/-- Sleep between polls in seconds (`time.sleep(5)`). -/
def healthInterval : Nat := 5

/-- Number of poll iterations within the budget: the loop body runs
while `5 * k < 120`, i.e. for `k = 0, ..., 23`. -/
def healthMaxPolls : Nat := healthTimeout / healthInterval

/-- `_wait_for_healthy` (`wizard/steps/docker.py`, lines 74-102),
returning the index of the succeeding poll instead of a bare boolean so
that the timing claim is expressible. -/
def wait_for_healthy (parse : String → Option String)
    (polls : Nat → Int × String) : Option Nat :=
  waitForHealthyAux parse polls 0 healthMaxPolls

/-- The wait phase at the end of `run_docker` (`wizard/steps/docker.py`,
lines 139-142): on poll success no extra wait; on timeout an
`animated_wait` of 35 seconds in remote mode, 25 otherwise.  The first
component is the overall outcome of the bring-up stage, which is
success in both cases (`run_docker` falls through). -/
def run_docker_wait (cfg : Config) (parse : String → Option String)
    (polls : Nat → Int × String) : Bool × Nat :=
  match wait_for_healthy parse polls with
  | some _ => (true, 0)
  | none => (true, if cfg.deploy_mode = "remote" then 35 else 25)

/-! ## Add-on install sub-pipeline (`wizard/steps/site.py`)

`_install_app` issues six commands through the executor.  Per add-on,
the relevant part of the world is the exit code of the command of each step,
modelled as `exit : Nat → Int` for steps 1-6 (a completed command;
indices outside 1-6 are unused).  The function returns the success flag
together with the list of steps actually invoked, in order. -/

/-- `_install_app` (`wizard/steps/site.py`, lines 86-150).  Steps 1
(`bench get-app`), 2 (`pip install`), 4 (`install-app`) and 5
(`bench build`) are checked and short-circuit on a non-zero exit; the
exit codes of step 3 (register in `apps.txt`) and step 6 (asset copy)
are not inspected by the source. -/
def install_app (exit : Nat → Int) : Bool × List Nat :=
  if exit 1 ≠ 0 then (false, [1])
  else if exit 2 ≠ 0 then (false, [1, 2])
  else -- step 3 runs; its result is discarded
    if exit 4 ≠ 0 then (false, [1, 2, 3, 4])
    else if exit 5 ≠ 0 then (false, [1, 2, 3, 4, 5])
    else -- step 6 runs; its result is discarded
      (true, [1, 2, 3, 4, 5, 6])

/-- The per-category loop shared by `_install_extra_apps`,
`_install_community_apps` and `_install_custom_apps`
(`wizard/steps/site.py`, lines 153-255): every app in the list is
attempted, failures are collected.  Returns (attempted, failed), both
in iteration order.  `world a` gives the step exit codes for app `a`. -/
def categoryLoop (world : String → Nat → Int) : List String → List String × List String
  | [] => ([], [])
  | a :: rest =>
    let r := install_app (world a)
    let p := categoryLoop world rest
    (a :: p.1, if r.1 then p.2 else a :: p.2)

/-- Count returned by one category installer: `0` early-return for an
empty selection, else `len(apps) - len(failed)`. -/
def installCategoryCount (apps : List String) (world : String → Nat → Int) : Nat :=
  if apps.isEmpty then 0
  else apps.length - (categoryLoop world apps).2.length

/-- The `installed` total of `run_site` (`wizard/steps/site.py`, lines
420-424): sum over the official (extra), community and custom
categories. -/
def run_site_installed (extra comm custom : List String)
    (wE wC wK : String → Nat → Int) : Nat :=
  installCategoryCount extra wE + installCategoryCount comm wC
    + installCategoryCount custom wK

/-- Number of `restart frontend` commands issued by `run_site`
(`wizard/steps/site.py`, lines 446-449): one if `installed > 0`, none
otherwise. -/
def run_site_restarts (extra comm custom : List String)
    (wE wC wK : String → Nat → Int) : Nat :=
  if 0 < run_site_installed extra comm custom wE wC wK then 1 else 0

/-! ## Version fetching (`wizard/versions.py`) -/

/-- Full match of the stable-tag pattern `^v(\d+)\.(\d+)\.(\d+)$`
(`_STABLE_RE`, which is also the `erpnext_version` validation pattern
`v\d+\.\d+\.\d+` in `config_loader.py`): a leading `v`, then exactly
three non-empty all-digit groups separated by dots.  Returns the
numeric `(major, minor, patch)` triple on a match. -/
def parseStable (s : String) : Option (Nat × Nat × Nat) :=
  match s.toList with
  | 'v' :: rest =>
    match splitCharAux '.' [] rest with
    | [a, b, c] =>
      if (!a.isEmpty && a.all Char.isDigit) && (!b.isEmpty && b.all Char.isDigit)
          && (!c.isEmpty && c.all Char.isDigit) then
        some (digitsToNat a, digitsToNat b, digitsToNat c)
      else none
    | _ => none
  | _ => none

/-- Minimum supported major version (`_MIN_MAJOR = 14`). -/
def minMajor : Nat := 14

/-- Page size of the tag listing (`_PER_PAGE = 100`). -/
def perPage : Nat := 100

/-- The tag filter in the fetch loop: matches `_STABLE_RE` and has
major version at least `_MIN_MAJOR`. -/
def stableTag (s : String) : Bool :=
  match parseStable s with
  | some (maj, _, _) => decide (minMajor ≤ maj)
  | none => false

/-- One page of the GitHub tags API as the fetch loop sees it:
either a successful JSON response — a list of tag objects, each with an
optional `name` field (`none` models a missing key, raising
`KeyError`) — or a network/API/parse failure raising inside
`urllib`/`json.loads`. -/
inductive TagPage where
  | ok (tags : List (Option String)) : TagPage
  | fail : TagPage

/-- `tag["name"]` over a page: any missing key raises, discarding the
whole fetch. -/
def extractNames : List (Option String) → Except Unit (List String)
  | [] => .ok []
  | none :: _ => .error ()
  | some n :: rest =>
    match extractNames rest with
    | .error e => .error e
    | .ok r => .ok (n :: r)

/-- The paginated fetch loop of `fetch_erpnext_versions`
(`wizard/versions.py`, lines 21-47): request pages in order; stop on an
empty page or a page shorter than `_PER_PAGE`; collect the names that
pass the stable filter; any failure (`URLError`, `OSError`,
`JSONDecodeError`, `KeyError`, `TypeError`) aborts the whole fetch.
`pages` is the sequence of responses the server would give; requests
past the end of the list behave as an empty page. -/
def fetchPages : List TagPage → Except Unit (List String)
  | [] => .ok []
  | .fail :: _ => .error ()
  | .ok data :: rest =>
    if data.isEmpty then .ok []
    else
      match extractNames data with
      | .error e => .error e
      | .ok names =>
        let filtered := names.filter stableTag
        if data.length < perPage then .ok filtered
        else
          match fetchPages rest with
          | .error e => .error e
          | .ok more => .ok (filtered ++ more)

/-- `_sort_key` (`wizard/versions.py`, lines 49-51): the numeric triple,
`(0, 0, 0)` for a non-matching string. -/
def sortKey (v : String) : Nat × Nat × Nat :=
  (parseStable v).getD (0, 0, 0)

/-- Lexicographic `≤` on numeric version triples. -/
def tripleLe (a b : Nat × Nat × Nat) : Bool :=
  if a.1 ≠ b.1 then a.1 < b.1
  else if a.2.1 ≠ b.2.1 then a.2.1 < b.2.1
  else a.2.2 ≤ b.2.2

/-- The descending order used by `tags.sort(key=_sort_key,
reverse=True)`: `x` before `y` when the key of `y` is at most the key
of `x`. -/
def versionDesc (x y : String) : Prop := tripleLe (sortKey y) (sortKey x) = true

instance : DecidableRel versionDesc := fun x y => by
  unfold versionDesc; infer_instance

/-- `fetch_erpnext_versions` (`wizard/versions.py`, lines 15-55): the
collected stable tags sorted newest-first (a stable sort, embedded as
insertion sort), or `[]` on any failure. -/
def fetch_erpnext_versions (pages : List TagPage) : List String :=
  match fetchPages pages with
  | .error _ => []
  | .ok tags => tags.insertionSort versionDesc

/-- The version default chosen by `run_configure`
(`wizard/steps/configure.py`, lines 186-195): the newest fetched
version, or the hardcoded `"v16.7.3"` when the fetch came back empty. -/
def configureDefaultVersion (versions : List String) : String :=
  match versions with
  | [] => "v16.7.3"
  | v :: _ => v

/-! ## Version branch (spec-modelled) -/

/-- Modelled from the spec: `version_branch` is imported from
`wizard/utils.py` by `wizard/steps/site.py`, `wizard/apps.py`,
`wizard/steps/env_file.py` and `wizard/commands/upgrade.py`, but its
definition is missing from the sources; per the spec ("For all valid
semantic version strings `vX.Y.Z`, the derived default branch equals
`version-X` exactly") and the `AppInfo.branch` docstring ("None to use
version-{major}"), it maps the version string to `version-` followed by
the major component: the digit run after the leading `v`, i.e. the
first dot-separated component. -/
def version_branch (version : String) : String :=
  "version-" ++ String.mk ((version.toList.drop 1).takeWhile (fun c => c ≠ '.'))

/-! ## Configuration validation (`wizard/config_loader.py`) -/

/-- ASCII letter or digit, the character class `[a-zA-Z0-9]`. -/
def isAlnum (c : Char) : Bool := c.isAlpha || c.isDigit

/-- One hostname label per the site-name/domain pattern
`[a-zA-Z0-9]([a-zA-Z0-9\-]*[a-zA-Z0-9])?`: non-empty, starts and ends
with an alphanumeric character, interior characters alphanumeric or
hyphen. -/
def validLabel : List Char → Bool
  | [] => false
  | [c] => isAlnum c
  | c :: rest =>
    isAlnum c && rest.dropLast.all (fun x => isAlnum x || x = '-')
      && (match rest.getLast? with
          | some d => isAlnum d
          | none => true)

/-- Full match of the hostname pattern used for `site_name` and
`domain` (`config_loader.py`, line 175): at least two dot-separated
valid labels. -/
def validHostname (s : String) : Bool :=
  let labels := splitCharAux '.' [] s.toList
  decide (2 ≤ labels.length) && labels.all validLabel

/-- Full match of the email pattern `[^@\s]+@[^@\s]+\.[^@\s]+`
(`config_loader.py`, line 189): exactly one `@`, non-empty
whitespace-free parts, and a dot in the interior of the domain part. -/
def validEmail (s : String) : Bool :=
  match splitCharAux '@' [] s.toList with
  | [a, d] =>
    !a.isEmpty && a.all (fun c => !isPySpace c)
      && !d.isEmpty && d.all (fun c => !isPySpace c)
      && (d.drop 1).dropLast.contains '.'
  | _ => false

/-- The `http_port` range test (`config_loader.py`, lines 179-181):
all-digits and numerically between 1024 and 65535. -/
def validHttpPort (p : String) : Bool :=
  pyIsDigit p && decide (1024 ≤ digitsToNat p.toList)
    && decide (digitsToNat p.toList ≤ 65535)

/-- `_validate_config` (`wizard/config_loader.py`, lines 160-199): the
list of error messages collected in source order; the caller exits with
status 1 exactly when the list is non-empty. -/
def validate_config (cfg : Config) : List String :=
  (if cfg.site_name = "" then ["site_name is required"] else [])
  ++ (if cfg.erpnext_version = "" then ["erpnext_version is required"] else [])
  ++ (if cfg.db_password = "" then ["db_password is required"] else [])
  ++ (if cfg.admin_password = "" then ["admin_password is required"] else [])
  ++ (if cfg.site_name ≠ "" ∧ validHostname cfg.site_name = false then
        ["Invalid site_name: " ++ cfg.site_name] else [])
  ++ (if cfg.erpnext_version ≠ "" ∧ parseStable cfg.erpnext_version = none then
        ["Invalid erpnext_version: " ++ cfg.erpnext_version] else [])
  ++ (if cfg.deploy_mode = "local" ∧ cfg.http_port ≠ ""
          ∧ validHttpPort cfg.http_port = false then
        ["Invalid http_port: " ++ cfg.http_port] else [])
  ++ (if cfg.deploy_mode = "production" ∨ cfg.deploy_mode = "remote" then
        (if cfg.domain = "" then ["domain is required for production/remote mode"] else [])
        ++ (if cfg.letsencrypt_email = "" then
              ["letsencrypt_email is required for production/remote mode"]
            else if validEmail cfg.letsencrypt_email = false then
              ["Invalid letsencrypt_email format: " ++ cfg.letsencrypt_email]
            else [])
      else [])
  ++ (if cfg.deploy_mode = "remote" ∧ cfg.ssh_host = "" then
        ["ssh_host is required for remote mode"] else [])

/-! ## Helper lemmas -/

theorem takeWhile_append_stop {p : Char → Bool} :
    ∀ (l₁ : List Char) (c : Char) (l₂ : List Char),
      (∀ x ∈ l₁, p x = true) → p c = false →
      (l₁ ++ c :: l₂).takeWhile p = l₁ := by
  intro l₁ c l₂ hall hc
  induction l₁ with
  | nil => simp [List.takeWhile, hc]
  | cons a t ih =>
    have ha : p a = true := hall a (by simp)
    simp only [List.cons_append, List.takeWhile_cons, ha, if_true]
    rw [ih (fun x hx => hall x (by simp [hx]))]

end Wizard

namespace Wizard

/-! ## C1: executors return the exit status, raising only on transport
failure -/

/-- C1: for both executor variants, `run(command, capture)` never
raises when the executed command completes with a non-zero exit status:
it returns the exit code when `capture` is false and the triple
`(exit code, stdout, stderr)` when `capture` is true; only
transport-level failure (the `none` world outcome) is exceptional. -/
theorem run_no_raise_on_nonzero_exit
    (el : LocalExecutor) (es : SSHExecutor)
    (wloc : CmdWorld String) (wssh : CmdWorld (List String)) (cmd : String)
    (c : Int) (out err : String) (c' : Int) (out' err' : String)
    (_hc : c ≠ 0) (_hc' : c' ≠ 0)
    (hloc : wloc cmd = some (c, out, err))
    (hssh : wssh (es.ssh_base ++ [cmd]) = some (c', out', err')) :
    (el.run wloc cmd false = .ok (.code c)
      ∧ el.run wloc cmd true = .ok (.captured c out err))
    ∧ (es.run wssh cmd false = .ok (.code c')
      ∧ es.run wssh cmd true = .ok (.captured c' out' err')) := by
  simp [LocalExecutor.run, SSHExecutor.run, subprocessRun, hloc, hssh]

/-- Concrete instance of C1: a command exiting 1 locally and 2 over
ssh. -/
theorem run_no_raise_on_nonzero_exit_witness :
    (LocalExecutor.run ⟨⟩ (fun _ => some (1, "", "")) "false" false = .ok (.code 1)
      ∧ LocalExecutor.run ⟨⟩ (fun _ => some (1, "", "")) "false" true
          = .ok (.captured 1 "" ""))
    ∧ (SSHExecutor.run ⟨"h", "root", 22, ""⟩ (fun _ => some (2, "o", "e")) "false" false
          = .ok (.code 2)
      ∧ SSHExecutor.run ⟨"h", "root", 22, ""⟩ (fun _ => some (2, "o", "e")) "false" true
          = .ok (.captured 2 "o" "e")) :=
  run_no_raise_on_nonzero_exit ⟨⟩ ⟨"h", "root", 22, ""⟩
    (fun _ => some (1, "", "")) (fun _ => some (2, "o", "e")) "false"
    1 "" "" 2 "o" "e" (by decide) (by decide) rfl rfl

/-! ## C10: executor factory -/

/-- C10: `create_executor` returns an `SSHExecutor` if and only if
`deploy_mode` is `"remote"`; for both `"local"` and `"production"` it
returns a `LocalExecutor`, so in production mode every pipeline command
executes on the current host. -/
theorem create_executor_ssh_iff_remote (cfg : Config) :
    ((∃ e, create_executor cfg = .sshExec e) ↔ cfg.deploy_mode = "remote")
    ∧ (cfg.deploy_mode = "local" ∨ cfg.deploy_mode = "production" →
        create_executor cfg = .localExec ⟨⟩)
    ∧ (cfg.deploy_mode = "remote" →
        create_executor cfg =
          .sshExec ⟨cfg.ssh_host, cfg.ssh_user, cfg.ssh_port, cfg.ssh_key_path⟩) := by
  unfold create_executor
  by_cases h : cfg.deploy_mode = "remote"
  · simp [h]
  · simp [h]

/-- Concrete instance of C10: production mode runs locally, remote mode
over ssh. -/
theorem create_executor_ssh_iff_remote_witness :
    create_executor { deploy_mode := "production" } = .localExec ⟨⟩
    ∧ create_executor { deploy_mode := "remote", ssh_host := "h" }
        = .sshExec ⟨"h", "root", 22, ""⟩ :=
  ⟨(create_executor_ssh_iff_remote { deploy_mode := "production" }).2.1 (Or.inr rfl),
   (create_executor_ssh_iff_remote { deploy_mode := "remote", ssh_host := "h" }).2.2 rfl⟩

/-! ## C5: derived default branch -/

/-- C5: for every valid semantic version string `vX.Y.Z` (`X` a
non-empty digit run), `version_branch` yields exactly `version-X`.
The definition of `version_branch` is missing from the sources and is
modelled from the spec, see its doc comment. -/
theorem version_branch_eq_version_major (x y z : List Char)
    (hx : ∀ c ∈ x, c.isDigit = true) (_hxne : x ≠ []) :
    version_branch (String.mk ('v' :: (x ++ '.' :: (y ++ '.' :: z))))
      = "version-" ++ String.mk x := by
  unfold version_branch
  have hdrop :
      (String.mk ('v' :: (x ++ '.' :: (y ++ '.' :: z)))).toList.drop 1
        = x ++ '.' :: (y ++ '.' :: z) := rfl
  rw [hdrop, takeWhile_append_stop x '.' (y ++ '.' :: z)
    (fun c hc => by
      have hd := hx c hc
      simp only [decide_eq_true_eq]
      intro heq
      rw [heq] at hd
      simp [Char.isDigit] at hd)
    (by decide)]

/-- Concrete instances of C5: `v16.7.3 → version-16` and
`v15.2.0 → version-15`. -/
theorem version_branch_eq_version_major_witness :
    version_branch "v16.7.3" = "version-16"
    ∧ version_branch "v15.2.0" = "version-15" := by
  have h16 := version_branch_eq_version_major ['1', '6'] ['7'] ['3']
    (by decide) (by decide)
  have h15 := version_branch_eq_version_major ['1', '5'] ['2'] ['0']
    (by decide) (by decide)
  have e16 : String.mk ('v' :: (['1', '6'] ++ '.' :: (['7'] ++ '.' :: ['3'])))
      = "v16.7.3" := by decide
  have e15 : String.mk ('v' :: (['1', '5'] ++ '.' :: (['2'] ++ '.' :: ['0'])))
      = "v15.2.0" := by decide
  have f16 : "version-" ++ String.mk ['1', '6'] = "version-16" := by decide
  have f15 : "version-" ++ String.mk ['1', '5'] = "version-15" := by decide
  rw [e16, f16] at h16
  rw [e15, f15] at h15
  exact ⟨h16, h15⟩

/-! ## C6: convergent construction from the three sources (code bug)

The `Config` dataclass (`wizard/steps/configure.py`, lines 23-60)
declares no `backup_cron` field, yet both `_config_from_yaml` and
`_config_from_args` pass `backup_cron=` to `Config(...)`; a Python
dataclass constructor rejects unknown keywords with a `TypeError`, so
construction from a YAML file or from command-line arguments always
raises before `_validate_config` is reached, and no unattended `Config`
is ever produced (while interactive construction omits the field that
`build_compose_cmd` later reads). -/

/-- C6 (code bug evidence): the loaders pass the constructor keyword
`backup_cron`, which the `Config` dataclass does not declare. -/
theorem config_ctor_kwarg_mismatch :
    "backup_cron" ∈ config_from_yaml_kwargs
    ∧ "backup_cron" ∈ config_from_args_kwargs
    ∧ "backup_cron" ∉ config_dataclass_fields := by
  refine ⟨by decide, by decide, by decide⟩

/-! ## C7: missing letsencrypt_email in unattended mode (code bug)

`_validate_config` itself reports exactly the `letsencrypt_email`
error for a production config that is missing only that field — but in
the unattended path the `Config(...)` construction raises `TypeError`
on the undeclared `backup_cron` keyword before `_validate_config`
runs, so the process exits with the generic unexpected-error message
instead of one naming `letsencrypt_email`. -/

/-- C7 (code bug evidence): at the failing input — a production-mode
configuration that is valid except for the missing
`letsencrypt_email` — validation as written yields exactly the
`letsencrypt_email` error, yet the unattended loader passes the
undeclared `backup_cron` keyword first, so validation is never
reached. -/
theorem validate_missing_letsencrypt_email :
    validate_config
        { deploy_mode := "production", site_name := "erp.example.com",
          erpnext_version := "v16.7.3", db_password := "x",
          admin_password := "y", domain := "erp.example.com" }
      = ["letsencrypt_email is required for production/remote mode"]
    ∧ "backup_cron" ∈ config_from_yaml_kwargs
    ∧ "backup_cron" ∉ config_dataclass_fields := by
  refine ⟨by decide, by decide, by decide⟩

/-! ## C2: compose-file selection -/

/-- C2: for every configuration, the selected files are the base
`compose.yaml`, then exactly one database overlay chosen by `db_type`,
then the redis overlay, then exactly one ingress overlay —
`compose.noproxy.yaml` iff `deploy_mode` is local, `compose.https.yaml`
iff it is production or remote — then the optional backup-cron and
portainer overlays, in exactly that order; for a local-mode mariadb
configuration with no backup schedule and no portainer the list is
exactly the four-element base list. -/
theorem build_compose_files_spec (cfg : Config)
    (hmode : cfg.deploy_mode = "local" ∨ cfg.deploy_mode = "production"
      ∨ cfg.deploy_mode = "remote") :
    (build_compose_files cfg =
      ["compose.yaml",
       if cfg.db_type = "postgres" then "overrides/compose.postgres.yaml"
         else "overrides/compose.mariadb.yaml",
       "overrides/compose.redis.yaml",
       if cfg.deploy_mode = "local" then "overrides/compose.noproxy.yaml"
         else "overrides/compose.https.yaml"]
      ++ (if cfg.backup_cron ≠ "" then ["overrides/compose.backup-cron.yaml"] else [])
      ++ (if cfg.enable_portainer then ["compose.portainer.yaml"] else []))
    ∧ ("overrides/compose.noproxy.yaml" ∈ build_compose_files cfg ↔
        cfg.deploy_mode = "local")
    ∧ ("overrides/compose.https.yaml" ∈ build_compose_files cfg ↔
        (cfg.deploy_mode = "production" ∨ cfg.deploy_mode = "remote"))
    ∧ ("overrides/compose.postgres.yaml" ∈ build_compose_files cfg ↔
        cfg.db_type = "postgres")
    ∧ ("overrides/compose.mariadb.yaml" ∈ build_compose_files cfg ↔
        ¬cfg.db_type = "postgres")
    ∧ (cfg.deploy_mode = "local" → cfg.db_type = "mariadb" →
        cfg.backup_cron = "" → cfg.enable_portainer = false →
        build_compose_files cfg =
          ["compose.yaml", "overrides/compose.mariadb.yaml",
           "overrides/compose.redis.yaml", "overrides/compose.noproxy.yaml"]) := by
  rcases hmode with hm | hm | hm <;>
    by_cases hdb : cfg.db_type = "postgres" <;>
    by_cases hb : cfg.backup_cron = "" <;>
    by_cases hp : cfg.enable_portainer = true <;>
    simp [build_compose_files, hm, hdb, hb, hp]

/-- Concrete instance of C2: the spec scenario (local mode, mariadb
defaults, no backup schedule, no portainer) yields exactly the
four-file list. -/
theorem build_compose_files_spec_witness :
    build_compose_files
        { deploy_mode := "local", site_name := "mysite.localhost",
          erpnext_version := "v16.7.3", db_password := "x",
          admin_password := "y" }
      = ["compose.yaml", "overrides/compose.mariadb.yaml",
         "overrides/compose.redis.yaml", "overrides/compose.noproxy.yaml"] :=
  (build_compose_files_spec
      { deploy_mode := "local", site_name := "mysite.localhost",
        erpnext_version := "v16.7.3", db_password := "x",
        admin_password := "y" }
      (Or.inl rfl)).2.2.2.2.2 rfl rfl rfl rfl

/-! ## C4: add-on install sub-pipeline short-circuiting

The source checks the exit codes of steps 1, 2, 4 and 5 only; the
results of step 3 (manifest registration, `wizard/steps/site.py` lines
118-121) and step 6 (asset copy, lines 142-148) are discarded, so a
failure of step 3 short-circuits nothing and a failure of step 6 does
not mark the add-on as failed. -/

/-- C4 counterexample: with a world where step 3 exits 1 and all other
steps exit 0, the add-on is reported as successfully installed and
steps 4-6 are still invoked — refuting the claim that a failure of any
of the six steps short-circuits the remaining steps and counts the
add-on as failed. -/
theorem install_app_step3_failure_ignored :
    ((fun n => if n = 3 then (1 : Int) else 0) 3 ≠ 0)
    ∧ install_app (fun n => if n = 3 then (1 : Int) else 0)
        = (true, [1, 2, 3, 4, 5, 6]) := by
  refine ⟨by decide, by decide⟩

/-- C4 (amended): failures of step 1 (fetch), step 2 (dependency
install), step 4 (install-on-site) and step 5 (asset build) each
short-circuit all remaining steps and count the add-on as failed —
in particular a step-4 failure invokes neither step 5 nor step 6 —
while the exit codes of step 3 (manifest registration) and step 6
(asset copy) are ignored; sibling add-ons are always all attempted. -/
theorem install_app_short_circuit (w : Nat → Int)
    (apps : List String) (world : String → Nat → Int) :
    (w 1 ≠ 0 → install_app w = (false, [1]))
    ∧ (w 1 = 0 → w 2 ≠ 0 → install_app w = (false, [1, 2]))
    ∧ (w 1 = 0 → w 2 = 0 → w 4 ≠ 0 → install_app w = (false, [1, 2, 3, 4]))
    ∧ (w 1 = 0 → w 2 = 0 → w 4 = 0 → w 5 ≠ 0 →
        install_app w = (false, [1, 2, 3, 4, 5]))
    ∧ (w 1 = 0 → w 2 = 0 → w 4 = 0 → w 5 = 0 →
        install_app w = (true, [1, 2, 3, 4, 5, 6]))
    ∧ (categoryLoop world apps).1 = apps := by
  refine ⟨?_, ?_, ?_, ?_, ?_, ?_⟩
  · intro h1; simp [install_app, h1]
  · intro h1 h2; simp [install_app, h1, h2]
  · intro h1 h2 h4; simp [install_app, h1, h2, h4]
  · intro h1 h2 h4 h5; simp [install_app, h1, h2, h4, h5]
  · intro h1 h2 h4 h5; simp [install_app, h1, h2, h4, h5]
  · induction apps with
    | nil => rfl
    | cons a rest ih => simp [categoryLoop, ih]

/-- Concrete instance of C4 (amended): a step-4 failure stops after
step 4 with the add-on failed, and both add-ons of a category are
attempted. -/
theorem install_app_short_circuit_witness :
    install_app (fun n => if n = 4 then (1 : Int) else 0) = (false, [1, 2, 3, 4])
    ∧ (categoryLoop (fun _ n => if n = 4 then (1 : Int) else 0) ["a", "b"]).1
        = ["a", "b"] := by
  have h := install_app_short_circuit (fun n => if n = 4 then (1 : Int) else 0)
    ["a", "b"] (fun _ n => if n = 4 then (1 : Int) else 0)
  exact ⟨h.2.2.1 rfl rfl (by decide), h.2.2.2.2.2⟩

/-! ## C9: frontend restart iff an add-on succeeded -/

theorem categoryLoop_failed_eq_filter (world : String → Nat → Int) :
    ∀ apps : List String,
      (categoryLoop world apps).2
        = apps.filter (fun a => !(install_app (world a)).1) := by
  intro apps
  induction apps with
  | nil => rfl
  | cons a rest ih =>
    by_cases h : (install_app (world a)).1 = true <;>
      simp [categoryLoop, List.filter, h, ih]

theorem length_filter_not_add (p : String → Bool) :
    ∀ l : List String,
      (l.filter p).length + (l.filter (fun a => !p a)).length = l.length := by
  intro l
  induction l with
  | nil => rfl
  | cons a rest ih =>
    by_cases h : p a = true <;> simp [List.filter, h] <;> omega

theorem installCategoryCount_eq_succ_length
    (apps : List String) (world : String → Nat → Int) :
    installCategoryCount apps world
      = (apps.filter (fun a => (install_app (world a)).1)).length := by
  unfold installCategoryCount
  rcases apps with _ | ⟨a, rest⟩
  · rfl
  · rw [if_neg (by simp), categoryLoop_failed_eq_filter]
    have h := length_filter_not_add (fun a => (install_app (world a)).1) (a :: rest)
    omega

theorem category_pos_iff (apps : List String) (world : String → Nat → Int) :
    0 < installCategoryCount apps world ↔
      ∃ a ∈ apps, (install_app (world a)).1 = true := by
  rw [installCategoryCount_eq_succ_length, List.length_pos_iff_exists_mem]
  constructor
  · rintro ⟨x, hx⟩
    rcases List.mem_filter.mp hx with ⟨hmem, hp⟩
    exact ⟨x, hmem, hp⟩
  · rintro ⟨a, hmem, hp⟩
    exact ⟨a, List.mem_filter.mpr ⟨hmem, hp⟩⟩

/-- C9: after all three add-on categories complete, the frontend
restart command is issued exactly once if and only if at least one
add-on across the categories installed successfully, and not at all
otherwise (including when no add-on is configured). -/
theorem run_site_restart_iff (extra comm custom : List String)
    (wE wC wK : String → Nat → Int) :
    (run_site_restarts extra comm custom wE wC wK = 1 ↔
      ((∃ a ∈ extra, (install_app (wE a)).1 = true)
        ∨ (∃ a ∈ comm, (install_app (wC a)).1 = true)
        ∨ (∃ a ∈ custom, (install_app (wK a)).1 = true)))
    ∧ (run_site_restarts extra comm custom wE wC wK = 0 ↔
      ¬((∃ a ∈ extra, (install_app (wE a)).1 = true)
        ∨ (∃ a ∈ comm, (install_app (wC a)).1 = true)
        ∨ (∃ a ∈ custom, (install_app (wK a)).1 = true))) := by
  have hpos : 0 < run_site_installed extra comm custom wE wC wK ↔
      ((∃ a ∈ extra, (install_app (wE a)).1 = true)
        ∨ (∃ a ∈ comm, (install_app (wC a)).1 = true)
        ∨ (∃ a ∈ custom, (install_app (wK a)).1 = true)) := by
    unfold run_site_installed
    rw [← category_pos_iff extra wE, ← category_pos_iff comm wC,
      ← category_pos_iff custom wK]
    omega
  unfold run_site_restarts
  by_cases h : 0 < run_site_installed extra comm custom wE wC wK
  · simp [h, hpos.mp h]
  · have hnp := fun hp => h (hpos.mpr hp)
    push_neg at hnp
    simp [h]
    simpa using hnp

/-! ## C3: health polling and timed fallback -/

theorem waitForHealthyAux_some_iff (parse : String → Option String)
    (polls : Nat → Int × String) :
    ∀ (fuel start k : Nat),
      waitForHealthyAux parse polls start fuel = some k ↔
        (start ≤ k ∧ k < start + fuel
          ∧ pollHealthy parse (polls k) = true
          ∧ ∀ j, start ≤ j → j < k → pollHealthy parse (polls j) = false) := by
  intro fuel
  induction fuel with
  | zero =>
    intro start k
    simp only [waitForHealthyAux]
    constructor
    · intro h; exact absurd h (by simp)
    · rintro ⟨h1, h2, -, -⟩; omega
  | succ n ih =>
    intro start k
    simp only [waitForHealthyAux]
    by_cases h : pollHealthy parse (polls start) = true
    · rw [if_pos h]
      constructor
      · rintro hk
        have hk' : start = k := by simpa using hk
        subst hk'
        exact ⟨le_refl _, by omega, h, fun j hj1 hj2 => by omega⟩
      · rintro ⟨h1, h2, h3, h4⟩
        by_cases hk : k = start
        · subst hk; rfl
        · have := h4 start (le_refl _) (by omega)
          rw [this] at h; exact absurd h (by simp)
    · rw [if_neg h]
      rw [ih (start + 1) k]
      constructor
      · rintro ⟨h1, h2, h3, h4⟩
        refine ⟨by omega, by omega, h3, fun j hj1 hj2 => ?_⟩
        by_cases hj : j = start
        · subst hj; simpa using h
        · exact h4 j (by omega) hj2
      · rintro ⟨h1, h2, h3, h4⟩
        have hks : k ≠ start := by
          intro hk; subst hk; exact h h3
        exact ⟨by omega, by omega, h3, fun j hj1 hj2 => h4 j (by omega) hj2⟩

theorem waitForHealthyAux_none_iff (parse : String → Option String)
    (polls : Nat → Int × String) :
    ∀ (fuel start : Nat),
      waitForHealthyAux parse polls start fuel = none ↔
        ∀ j, start ≤ j → j < start + fuel →
          pollHealthy parse (polls j) = false := by
  intro fuel
  induction fuel with
  | zero =>
    intro start
    simp only [waitForHealthyAux]
    constructor
    · intro _ j hj1 hj2; omega
    · intro _; trivial
  | succ n ih =>
    intro start
    simp only [waitForHealthyAux]
    by_cases h : pollHealthy parse (polls start) = true
    · rw [if_pos h]
      constructor
      · intro hcon; exact absurd hcon (by simp)
      · intro hall
        have := hall start (le_refl _) (by omega)
        rw [this] at h; exact absurd h (by simp)
    · rw [if_neg h]
      rw [ih (start + 1)]
      constructor
      · intro hall j hj1 hj2
        by_cases hj : j = start
        · subst hj; simpa using h
        · exact hall j (by omega) (by omega)
      · intro hall j hj1 hj2
        exact hall j (by omega) (by omega)

/-- C3: the health-poll loop issues one structured-status query every 5
seconds within the 120-second budget — hence at most `120 / 5 = 24`
polls — and succeeds at the first poll whose status command exits 0
with non-empty output in which every reported service line parses with
`State = "running"` and at least one service was reported
(`pollHealthy`); when no such poll occurs within the budget, the
bring-up stage performs the fixed wall-clock wait — 35 seconds when
`deploy_mode` is remote, 25 otherwise — and still reports overall
success. -/
theorem health_poll_first_success (cfg : Config)
    (parse : String → Option String) (polls : Nat → Int × String) :
    healthMaxPolls = 24
    ∧ (∀ k, wait_for_healthy parse polls = some k ↔
        (k < healthMaxPolls ∧ pollHealthy parse (polls k) = true
          ∧ ∀ j, j < k → pollHealthy parse (polls j) = false))
    ∧ (wait_for_healthy parse polls = none ↔
        ∀ j, j < healthMaxPolls → pollHealthy parse (polls j) = false)
    ∧ (run_docker_wait cfg parse polls).1 = true
    ∧ (wait_for_healthy parse polls = none →
        run_docker_wait cfg parse polls =
          (true, if cfg.deploy_mode = "remote" then 35 else 25))
    ∧ (∀ k, wait_for_healthy parse polls = some k →
        run_docker_wait cfg parse polls = (true, 0)) := by
  refine ⟨rfl, ?_, ?_, ?_, ?_, ?_⟩
  · intro k
    rw [wait_for_healthy, waitForHealthyAux_some_iff]
    constructor
    · rintro ⟨-, h2, h3, h4⟩
      exact ⟨by omega, h3, fun j hj => h4 j (by omega) hj⟩
    · rintro ⟨h2, h3, h4⟩
      exact ⟨by omega, by omega, h3, fun j _ hj => h4 j hj⟩
  · rw [wait_for_healthy, waitForHealthyAux_none_iff]
    constructor
    · intro h j hj; exact h j (by omega) (by omega)
    · intro h j _ hj; exact h j (by omega)
  · unfold run_docker_wait
    rcases h : wait_for_healthy parse polls <;> simp
  · intro hnone
    unfold run_docker_wait
    rw [hnone]
  · intro k hk
    unfold run_docker_wait
    rw [hk]

/-- Concrete instance of C3: with a status sequence that becomes
healthy at the third poll, the loop succeeds at index 2 without
fallback; with a status command that always exits 1, the loop times
out and the remote-mode bring-up performs the 35-second wait while
still succeeding. -/
theorem health_poll_first_success_witness :
    wait_for_healthy (fun s => if s = "R" then some "running" else none)
        (fun k => if k = 2 then ((0 : Int), "R") else ((1 : Int), "R")) = some 2
    ∧ run_docker_wait { deploy_mode := "remote" }
        (fun s => if s = "R" then some "running" else none)
        (fun _ => ((1 : Int), "R")) = (true, 35) := by
  have h1 := (health_poll_first_success { deploy_mode := "remote" }
    (fun s => if s = "R" then some "running" else none)
    (fun k => if k = 2 then ((0 : Int), "R") else ((1 : Int), "R"))).2.1 2
  have h2 := health_poll_first_success { deploy_mode := "remote" }
    (fun s => if s = "R" then some "running" else none)
    (fun _ => ((1 : Int), "R"))
  refine ⟨h1.mpr ⟨by decide, by decide, ?_⟩, ?_⟩
  · intro j hj
    interval_cases j <;> decide
  · have hn := h2.2.2.1.mpr (fun j _ => by decide)
    have := h2.2.2.2.2.1 hn
    simpa using this

/-! ## C8: version fetching -/

theorem tripleLe_iff (a b : Nat × Nat × Nat) :
    tripleLe a b = true ↔
      (a.1 < b.1 ∨ (a.1 = b.1 ∧ (a.2.1 < b.2.1
        ∨ (a.2.1 = b.2.1 ∧ a.2.2 ≤ b.2.2)))) := by
  unfold tripleLe
  by_cases h1 : a.1 = b.1 <;> by_cases h2 : a.2.1 = b.2.1 <;>
    simp [h1, h2]

theorem tripleLe_total (a b : Nat × Nat × Nat) :
    tripleLe a b = true ∨ tripleLe b a = true := by
  rw [tripleLe_iff, tripleLe_iff]
  omega

theorem tripleLe_trans (a b c : Nat × Nat × Nat)
    (hab : tripleLe a b = true) (hbc : tripleLe b c = true) :
    tripleLe a c = true := by
  rw [tripleLe_iff] at *
  omega

instance : IsTotal String versionDesc :=
  ⟨fun x y => tripleLe_total (sortKey y) (sortKey x)⟩

instance : IsTrans String versionDesc :=
  ⟨fun x y z hxy hyz => tripleLe_trans (sortKey z) (sortKey y) (sortKey x) hyz hxy⟩

theorem fetchPages_ok_stable :
    ∀ (pages : List TagPage) (tags : List String),
      fetchPages pages = .ok tags → ∀ v ∈ tags, stableTag v = true := by
  intro pages
  induction pages with
  | nil =>
    intro tags h v hv
    simp only [fetchPages] at h
    cases h
    simp at hv
  | cons page rest ih =>
    intro tags h v hv
    cases page with
    | fail => simp [fetchPages] at h
    | ok data =>
      simp only [fetchPages] at h
      split at h
      · cases h; simp at hv
      · split at h
        · exact absurd h (by simp)
        · split at h
          · cases h
            exact (List.mem_filter.mp hv).2
          · split at h
            · exact absurd h (by simp)
            · rename_i names _ _ more hr
              cases h
              rcases List.mem_append.mp hv with hv1 | hv2
              · exact (List.mem_filter.mp hv1).2
              · exact ih more hr v hv2

/-- C8: `fetch_erpnext_versions` returns, on success, exactly the tag
names matching the strict `v<major>.<minor>.<patch>` pattern with major
at least the minimum supported version (`stableTag`), sorted descending
by numeric triple (it is a permutation of the collected eligible tags
and sorted under `versionDesc`); on any network, API or parse failure
it returns the empty list (and, being a total function, never raises);
the default version used by the caller for an empty fetch result is the
hardcoded `"v16.7.3"`. -/
theorem fetch_versions_spec (pages : List TagPage) :
    List.Sorted versionDesc (fetch_erpnext_versions pages)
    ∧ (∀ v ∈ fetch_erpnext_versions pages, stableTag v = true)
    ∧ (∀ tags, fetchPages pages = .ok tags →
        (fetch_erpnext_versions pages).Perm tags)
    ∧ (fetchPages pages = .error () → fetch_erpnext_versions pages = [])
    ∧ configureDefaultVersion [] = "v16.7.3" := by
  refine ⟨?_, ?_, ?_, ?_, rfl⟩
  · unfold fetch_erpnext_versions
    cases h : fetchPages pages with
    | error e => exact List.sorted_nil
    | ok tags => exact List.sorted_insertionSort versionDesc tags
  · intro v hv
    unfold fetch_erpnext_versions at hv
    cases h : fetchPages pages with
    | error e => rw [h] at hv; simp at hv
    | ok tags =>
      rw [h] at hv
      exact fetchPages_ok_stable pages tags h v
        ((List.mem_insertionSort versionDesc).mp hv)
  · intro tags h
    unfold fetch_erpnext_versions
    rw [h]
    exact List.perm_insertionSort versionDesc tags
  · intro h
    unfold fetch_erpnext_versions
    rw [h]

/-- Concrete instance of C8: one short page with three eligible tags
(out of order, with a malformed and a too-old tag mixed in) sorts
newest-first; a failing request yields the empty list, and the caller
then falls back to the hardcoded default version. -/
theorem fetch_versions_spec_witness :
    fetch_erpnext_versions
        [.ok [some "v14.0.1", some "banana", some "v16.7.3",
              some "v13.9.9", some "v15.2.0"]]
      = ["v16.7.3", "v15.2.0", "v14.0.1"]
    ∧ fetch_erpnext_versions [.fail] = []
    ∧ configureDefaultVersion (fetch_erpnext_versions [.fail]) = "v16.7.3" := by
  have h := fetch_versions_spec [TagPage.fail]
  have hempty := h.2.2.2.1 rfl
  refine ⟨by decide, hempty, ?_⟩
  rw [hempty]
  exact h.2.2.2.2

/-- Concrete instance of C9: with one succeeding community add-on the
restart is issued exactly once; with no configured add-ons it is not
issued. -/
theorem run_site_restart_iff_witness :
    run_site_restarts [] ["a"] [] (fun _ _ => 0) (fun _ _ => 0) (fun _ _ => 0) = 1
    ∧ run_site_restarts [] [] [] (fun _ _ => 0) (fun _ _ => 0) (fun _ _ => 0) = 0 := by
  constructor
  · exact (run_site_restart_iff [] ["a"] []
      (fun _ _ => 0) (fun _ _ => 0) (fun _ _ => 0)).1.mpr
      (Or.inr (Or.inl ⟨"a", by simp, by decide⟩))
  · exact (run_site_restart_iff [] [] []
      (fun _ _ => 0) (fun _ _ => 0) (fun _ _ => 0)).2.mpr (by simp)

end Wizard
